import Mathlib

/-!
Verification of the `gradio_sample_viewer` repository against its
natural-language specification.

The development shallowly embeds the Python modules
`layout_decode.py`, `backend.py` and the relevant parts of `config.py`:
pure Python functions become Lean functions, Python exceptions become
`Except PyErr`, and the filesystem (plus the CSV/JSON/text parsers, which
are external library collaborators) is an explicit oracle `World` passed to
every function that touches the disk.
-/

set_option autoImplicit false

namespace GSV

/-! ## Paths

A model of `pathlib.Path` values: a POSIX path is an absolute/relative flag
plus the list of its components (`Path.parts`, with the root and `.`
components normalised away, as `pathlib` does). -/

structure PPath where
  absolute : Bool
  parts : List String
deriving DecidableEq, Repr

/-- Split a character list at every occurrence of a separator (the
semantics of `str.split(sep)`). -/
def splitOnChar (sep : Char) : List Char → List (List Char)
  | [] => [[]]
  | c :: rest =>
    let r := splitOnChar sep rest
    if c = sep then [] :: r
    else
      match r with
      | [] => [[c]]
      | g :: gs => (c :: g) :: gs

/-- `Path(s)` for a string `s`: absolute iff it starts with `/`; components
are the non-empty, non-`.` chunks between slashes (pathlib normalises both
away). -/
def parsePath (s : String) : PPath :=
  { absolute := match s.toList with | '/' :: _ => true | _ => false
    parts := ((splitOnChar '/' s.toList).map String.mk).filter (fun c => c ≠ "" && c ≠ ".") }

/-- Python's `base / p`: if `p` is absolute the result is `p`, otherwise the
components are appended to `base`. -/
def PPath.join (base p : PPath) : PPath :=
  if p.absolute then p else { absolute := base.absolute, parts := base.parts ++ p.parts }

/-- `base / s` for a string `s`. -/
def PPath.joinStr (base : PPath) (s : String) : PPath :=
  base.join (parsePath s)

/-- `Path.name`: the final component (empty for a bare root). -/
def PPath.name (p : PPath) : String :=
  (p.parts.getLast?).getD ""

/-- `Path.suffix`: the extension of the final component, following
`pathlib` (`name[i:]` for the last dot index `i` when `0 < i < len-1`,
else the empty string, so `.bashrc` and `a.` have no suffix). -/
def PPath.suffix (p : PPath) : String :=
  let cs := p.name.toList
  let ext := (cs.reverse.takeWhile (fun c => c ≠ '.')).reverse
  if 0 < ext.length ∧ ext.length < cs.length - 1 then
    String.mk ('.' :: ext)
  else ""

/-- `Path.as_posix`: the textual form of the path. -/
def PPath.asPosix (p : PPath) : String :=
  (if p.absolute then "/" else "") ++ String.intercalate "/" p.parts

/-- `p.relative_to(root)`: the components of `p` past those of `root`.
(The callers below only apply it to paths found under `root`, where
`pathlib` succeeds; the model simply drops `root`'s components.) -/
def PPath.relParts (root p : PPath) : List String :=
  p.parts.drop root.parts.length

/-- Strict codepoint-lexicographic order on character lists — the
comparison Python uses on strings. -/
def charsLt : List Char → List Char → Bool
  | _, [] => false
  | [], _ :: _ => true
  | a :: as, b :: bs =>
    if a.toNat < b.toNat then true
    else if b.toNat < a.toNat then false
    else charsLt as bs

/-- Strict string order, by codepoints. -/
def strLt (a b : String) : Bool :=
  charsLt a.toList b.toList

/-- Lexicographic (non-strict) order on component lists. -/
def partsLe : List String → List String → Bool
  | [], _ => true
  | _ :: _, [] => false
  | a :: as, b :: bs =>
    if strLt a b then true
    else if strLt b a then false
    else partsLe as bs

/-- `PurePath` ordering: CPython (≤ 3.11) compares the parts sequence with
the root as its first element (`_cparts`); 3.12+ compares the joined path
string instead — the two agree whenever paths differ in a whole component,
as the discovery outputs compared here do. -/
def pathLe (a b : PPath) : Bool :=
  partsLe ((if a.absolute then ["/"] else []) ++ a.parts)
    ((if b.absolute then ["/"] else []) ++ b.parts)

/-- Insert into a sorted list, before the first element it is `le` to
(keeping an element inserted later after equal earlier ones — stable). -/
def orderedInsert {α : Type} (le : α → α → Bool) (x : α) : List α → List α
  | [] => [x]
  | y :: ys => if le x y then x :: y :: ys else y :: orderedInsert le x ys

/-- Stable sort (Python's `sorted` is stable; any two stable sorts under
the same total preorder agree). -/
def insertionSortBy {α : Type} (le : α → α → Bool) : List α → List α
  | [] => []
  | x :: xs => orderedInsert le x (insertionSortBy le xs)

/-- Python's `sorted` on a list of paths. -/
def sortPaths (l : List PPath) : List PPath :=
  insertionSortBy pathLe l

/-! ## Python exceptions

The exception classes actually raised by the embedded code. -/

inductive PyErr where
  | indexError
  | typeError
  | valueError
  | keyError
  | fileNotFoundError
  | notImplementedError
  | attributeError
deriving DecidableEq, Repr

/-! ## Tabular content (`pandas.DataFrame` / `Series`)

Only the behaviour the source exercises is modelled: `.empty`, and
label-based `.loc` lookup, which raises `KeyError` on an absent label and
is unavailable (`AttributeError`) on a scalar cell. A `Tab.table` is an
index-labelled collection of rows; a `Tab.cell` is a scalar entry. -/

mutual

inductive Tab where
  | table (rows : TRows)
  | cell (value : String)
deriving DecidableEq, Repr

inductive TRows where
  | nil
  | cons (label : String) (row : Tab) (tl : TRows)
deriving DecidableEq, Repr

end

/-- First row with the given label. -/
def TRows.lookup : TRows → String → Option Tab
  | .nil, _ => none
  | .cons l r tl, key => if l = key then some r else TRows.lookup tl key

/-- `DataFrame.empty`: a table with no rows. -/
def Tab.isEmpty : Tab → Bool
  | .table .nil => true
  | _ => false

/-! ## Python data values

The JSON/YAML-like values flowing through `layout_decode.py`: scalars,
lists and (insertion-ordered) string-keyed dicts, plus the `Path` and
`DataFrame` values that resolution introduces. The list and dict spines
are mutually inductive so that all functions below are structurally
recursive (and hence compute by `rfl`/`decide`). -/

mutual

inductive Data where
  | null
  | bool (b : Bool)
  | int (n : Int)
  | str (s : String)
  | path (p : PPath)
  | frame (t : Tab)
  | list (ds : DList)
  | dict (kvs : DDict)
deriving DecidableEq, Repr

inductive DList where
  | nil
  | cons (hd : Data) (tl : DList)
deriving DecidableEq, Repr

inductive DDict where
  | nil
  | cons (key : String) (val : Data) (tl : DDict)
deriving DecidableEq, Repr

end

/-- The elements of a list value, as a Lean list. -/
def DList.toList : DList → List Data
  | .nil => []
  | .cons d tl => d :: DList.toList tl

/-- Build a list value from a Lean list. -/
def DList.ofList : List Data → DList
  | [] => .nil
  | d :: tl => .cons d (DList.ofList tl)

/-- Build a dict value from a Lean association list. -/
def DDict.ofList : List (String × Data) → DDict
  | [] => .nil
  | (k, v) :: tl => .cons k v (DDict.ofList tl)

/-- `d.get(key)` on a dict: the first binding of `key`, if any. -/
def DDict.lookup : DDict → String → Option Data
  | .nil, _ => none
  | .cons k v tl, key => if k = key then some v else DDict.lookup tl key

/-- `key in d` on a dict. -/
def DDict.containsKey (d : DDict) (key : String) : Bool :=
  (d.lookup key).isSome

/-- Python truthiness of a value (`None`, `False`, `0`, `""`, `[]` and
`{}` are falsy; `Path` and `DataFrame` objects are only ever tested where
the source guarantees they are not, so they count as truthy). -/
def Data.truthy : Data → Bool
  | .null => false
  | .bool b => b
  | .int n => n ≠ 0
  | .str s => s ≠ ""
  | .path _ => true
  | .frame _ => true
  | .list .nil => false
  | .list _ => true
  | .dict .nil => false
  | .dict _ => true

/-- `isinstance(v, (dict, list))`. -/
def Data.isContainer : Data → Bool
  | .list _ => true
  | .dict _ => true
  | _ => false

/-- `isinstance(v, (str, Path))`. -/
def Data.isPathLike : Data → Bool
  | .str _ => true
  | .path _ => true
  | _ => false

/-! ## The filesystem oracle

Everything the embedded code observes about the outside world: which paths
exist, what the external parsers (`json.load`, `pd.read_csv`, `open().read`)
return for a file, what a recursive glob / directory listing returns, the
parsed content of a discovery-cache file, and the user's home directory.
All functions are passed the oracle explicitly; none of the embedded code
writes through it (writes are returned as data instead). -/

structure World where
  pathExists : PPath → Bool
  jsonContent : PPath → Data
  csvContent : PPath → Tab
  textContent : PPath → String
  rglobMatches : PPath → String → List PPath
  iterdir : PPath → List PPath
  readJsonPaths : PPath → List PPath
  home : PPath

/-! ## `layout_decode.load_file`

Dispatch on the file suffix; any other suffix raises
`NotImplementedError`. (The `lru_cache` memo is invisible here: with an
unchanged `World` the function is pure, which is exactly the property the
memo relies on.) -/

def load_file (w : World) (filepath : PPath) : Except PyErr Data :=
  if filepath.suffix = ".json" then .ok (w.jsonContent filepath)
  else if filepath.suffix = ".csv" then .ok (.frame (w.csvContent filepath))
  else if filepath.suffix = ".txt" then .ok (.str (w.textContent filepath))
  else .error .notImplementedError

/-! ## `layout_decode.get_first_path_exists` -/

/-- `Path(v)`: succeeds on strings and paths, raises `TypeError` on
anything else. -/
def asPath : Data → Except PyErr PPath
  | .str s => .ok (parsePath s)
  | .path p => .ok p
  | _ => .error .typeError

/-- The `for` loop of `get_first_path_exists`: the first candidate whose
base-joined form exists, returned in joined form; `none` when the loop
falls through. -/
def firstExisting (w : World) (base : PPath) : List Data → Except PyErr (Option PPath)
  | [] => .ok none
  | c :: rest => do
    let p ← asPath c
    let full := base.join p
    if w.pathExists full then pure (some full) else firstExisting w base rest

/-- `get_first_path_exists(path_candidates, sample_folder)`: the first
existing candidate (joined with `sample_folder` when relative), else the
first list element exactly as given — `path_candidates[0]` raises
`IndexError` on an empty list. -/
def get_first_path_exists (w : World) (path_candidates : List Data) (sample_folder : PPath) :
    Except PyErr Data := do
  match ← firstExisting w sample_folder path_candidates with
  | some full => pure (.path full)
  | none =>
    match path_candidates with
    | [] => .error .indexError
    | c :: _ => pure c

/-! ## `layout_decode.load_layout_files` -/

/-- The index-chain loop for `dict` contents:
`to_return = to_return.get(index_key, None); if to_return is None: return None`.
JSON objects have string keys, so a hashable non-string index key is simply
absent; an unhashable key (list/dict) raises `TypeError`; `.get` on a
non-dict intermediate raises `AttributeError`. -/
def dictChain : Data → List Data → Except PyErr Data
  | cur, [] => .ok cur
  | cur, key :: rest =>
    match cur with
    | .dict kvs =>
      match key with
      | .list _ => .error .typeError
      | .dict _ => .error .typeError
      | .str s =>
        match kvs.lookup s with
        | none => .ok .null
        | some .null => .ok .null
        | some v => dictChain v rest
      | _ => .ok .null
    | _ => .error .attributeError

/-- The index-chain loop for `DataFrame` contents:
`to_return = to_return.loc[index_key]`. An absent label raises `KeyError`;
`.loc` on a scalar cell raises `AttributeError`. -/
def frameChain : Tab → List Data → Except PyErr Tab
  | t, [] => .ok t
  | t, key :: rest =>
    match t with
    | .cell _ => .error .attributeError
    | .table rows =>
      match key with
      | .str s =>
        match rows.lookup s with
        | some row => frameChain row rest
        | none => .error .keyError
      | _ => .error .keyError

/-- `results_folder / sample_name` where `results_folder` may be `None`
(in which case Python's path division raises `TypeError`). -/
def joinOpt (resultsFolder : Option PPath) (sampleName : String) : Except PyErr PPath :=
  match resultsFolder with
  | none => .error .typeError
  | some rf => .ok (rf.joinStr sampleName)

/-- The `load_contents=True` branch of `load_layout_files` (source lines
69–115): require `load_path`, resolve it against
`results_folder / sample_name` when relative, require existence, load,
then apply the index chain (dict contents and `DataFrame` contents each
with their own loop; an empty dict or empty frame short-circuits to
`None`). -/
def load_contents_branch (w : World) (kvs : DDict) (sampleName : String)
    (resultsFolder : Option PPath) : Except PyErr Data := do
  match kvs.lookup "load_path" with
  | none => .error .valueError
  | some lp => do
    let p ← asPath lp
    let loadPath ←
      if p.absolute then pure p
      else do
        let base ← joinOpt resultsFolder sampleName
        pure (base.join p)
    if w.pathExists loadPath = false then .error .fileNotFoundError
    else do
      let fileContents ← load_file w loadPath
      let indices := (kvs.lookup "indices").getD .null
      if indices = Data.null ∨ indices = Data.list .nil then pure fileContents
      else
        match fileContents with
        | .dict c =>
          if c = DDict.nil then pure .null
          else
            match indices with
            | .list idx => dictChain (.dict c) idx.toList
            | _ => .error .typeError
        | .frame t =>
          if t.isEmpty then pure .null
          else
            match indices with
            | .list idx => do pure (.frame (← frameChain t idx.toList))
            | _ => .error .typeError
        | _ => .error .typeError

mutual

/-- `load_layout_files(data, sample_name, results_folder)`: recursively
traverse `data`; a `first_path_exists` node delegates to the path
resolver, a truthy `load_contents` node loads (and optionally indexes) a
file, every other dict recurses into its container values, and a
non-dict/non-list argument raises `TypeError`. -/
def load_layout_files (w : World) (data : Data) (sampleName : String)
    (resultsFolder : Option PPath) : Except PyErr Data :=
  match data with
  | .list ds => do pure (.list (← load_layout_files_seq w ds sampleName resultsFolder))
  | .dict kvs =>
    if kvs.containsKey "first_path_exists" then
      match kvs.lookup "first_path_exists" with
      | some (.list cands) => do
        let base ← joinOpt resultsFolder sampleName
        get_first_path_exists w cands.toList base
      -- a non-list value is modelled as `TypeError`: Python's `for path in v`
      -- raises it for non-iterables (a string would iterate character-wise,
      -- a case the layout schema rules out and no claim exercises)
      | some _ => .error .typeError
      | none => .error .keyError
    else if ((kvs.lookup "load_contents").getD (.bool false)).truthy = false then do
      pure (.dict (← load_layout_files_vals w kvs sampleName resultsFolder))
    else
      load_contents_branch w kvs sampleName resultsFolder
  | _ => .error .typeError

/-- The list comprehension of the `list` branch. -/
def load_layout_files_seq (w : World) (ds : DList) (sampleName : String)
    (resultsFolder : Option PPath) : Except PyErr DList :=
  match ds with
  | .nil => pure .nil
  | .cons d tl => do
    pure (.cons (← load_layout_files w d sampleName resultsFolder)
      (← load_layout_files_seq w tl sampleName resultsFolder))

/-- The dict comprehension of the pass-through branch: container values
recurse, scalar values are kept as they are. -/
def load_layout_files_vals (w : World) (kvs : DDict) (sampleName : String)
    (resultsFolder : Option PPath) : Except PyErr DDict :=
  match kvs with
  | .nil => pure .nil
  | .cons k v tl => do
    let v2 ←
      if v.isContainer then load_layout_files w v sampleName resultsFolder else pure v
    pure (.cons k v2 (← load_layout_files_vals w tl sampleName resultsFolder))

end

/-! ## `layout_decode.prepare_layout_components`

`json.loads(json.dumps(cfg.layout).replace("${sample_folder_name}", folder_name))`:
the placeholder token is replaced in the serialized JSON text. Since the
token contains no character that `json.dumps` escapes, its occurrences in
the text are exactly its occurrences inside string literals — keys as well
as values — so the round-trip is the structural substitution below. (It is
faithful for folder names that need no JSON escaping and do not create
duplicate keys; directory names in practice satisfy both.) -/

/-- Left-to-right, non-overlapping replacement of a (non-empty) pattern,
the semantics of Python's `str.replace`. The fuel argument is the length
of the text: every step consumes at least one character. -/
def substChars (pat repl : List Char) : Nat → List Char → List Char
  | _, [] => []
  | 0, s => s
  | n + 1, c :: rest =>
    if (c :: rest).take pat.length = pat then
      repl ++ substChars pat repl n (rest.drop (pat.length - 1))
    else
      c :: substChars pat repl n rest

/-- `s.replace("${sample_folder_name}", folder_name)`. -/
def substStr (folderName s : String) : String :=
  String.mk (substChars "${sample_folder_name}".toList folderName.toList s.toList.length s.toList)

mutual

/-- The serialize/replace/deserialize placeholder substitution, as a
structural map over the tree: every string value and every dict key has
the token replaced. `Path`/`DataFrame` values never occur in the
pre-resolution layout (they are not JSON-serializable) and pass through. -/
def substData (folderName : String) : Data → Data
  | .str s => .str (substStr folderName s)
  | .list ds => .list (substSeq folderName ds)
  | .dict kvs => .dict (substVals folderName kvs)
  | d => d

def substSeq (folderName : String) : DList → DList
  | .nil => .nil
  | .cons d tl => .cons (substData folderName d) (substSeq folderName tl)

def substVals (folderName : String) : DDict → DDict
  | .nil => .nil
  | .cons k v tl =>
    .cons (substStr folderName k) (substData folderName v) (substVals folderName tl)

end

/-! ## The configuration object (`config.GradioConfig`)

Only the fields the embedded code reads. `layout` is the list the YAML
loader produced; `results_folder` and `cache_folder` may be unset. -/

structure GradioConfig where
  results_folder : Option PPath
  layout : DList
  thumbnail_path : Data
  filter_results_by_existance_of : Option String
  cache_folder : Option PPath
  filename : Option String
deriving DecidableEq

/-- `prepare_layout_components(cfg, folder_name)`: substitute the
placeholder once on a fresh copy of the tree, then resolve it. -/
def prepare_layout_components (w : World) (cfg : GradioConfig) (folderName : String) :
    Except PyErr Data :=
  load_layout_files w (substData folderName (.list cfg.layout)) folderName cfg.results_folder

/-- `prepare_layout_components` with the configuration threaded through as
explicit state: the second component is the configuration object as it
stands after the call. The source only ever reads `cfg.layout`
(`json.dumps`) and `cfg.results_folder`, so the state comes back
unchanged — this is the embedding of "the original template is never
mutated". -/
def resolveSession (w : World) (cfg : GradioConfig) (folderName : String) :
    Except PyErr Data × GradioConfig :=
  (prepare_layout_components w cfg folderName, cfg)

/-! ## SHA-256 (`hashlib.sha256(...).hexdigest()`)

A full executable SHA-256 over byte lists, with 32-bit words represented
as `Nat` reduced modulo `2^32`, and UTF-8 encoding of the input string
(`str.encode()`). -/


def utf8Char (n : Nat) : List Nat :=
  if n < 0x80 then [n]
  else if n < 0x800 then [0xC0 + n / 0x40, 0x80 + n % 0x40]
  else if n < 0x10000 then
    [0xE0 + n / 0x1000, 0x80 + n / 0x40 % 0x40, 0x80 + n % 0x40]
  else
    [0xF0 + n / 0x40000, 0x80 + n / 0x1000 % 0x40, 0x80 + n / 0x40 % 0x40, 0x80 + n % 0x40]

def utf8Bytes (s : String) : List Nat :=
  (s.toList.map (fun c => utf8Char c.toNat)).flatten

def w32 (n : Nat) : Nat := n % 4294967296

def rotr (k x : Nat) : Nat := w32 (x / 2 ^ k + x * 2 ^ (32 - k))

def shaCh (x y z : Nat) : Nat := (x &&& y) ^^^ ((4294967295 - x) &&& z)

def shaMaj (x y z : Nat) : Nat := (x &&& y) ^^^ (x &&& z) ^^^ (y &&& z)

def bigSigma0 (x : Nat) : Nat := rotr 2 x ^^^ rotr 13 x ^^^ rotr 22 x

def bigSigma1 (x : Nat) : Nat := rotr 6 x ^^^ rotr 11 x ^^^ rotr 25 x

def smallSigma0 (x : Nat) : Nat := rotr 7 x ^^^ rotr 18 x ^^^ (x / 2 ^ 3)

def smallSigma1 (x : Nat) : Nat := rotr 17 x ^^^ rotr 19 x ^^^ (x / 2 ^ 10)

def shaK : List Nat :=
  [1116352408, 1899447441, 3049323471, 3921009573, 961987163, 1508970993,
   2453635748, 2870763221, 3624381080, 310598401, 607225278, 1426881987,
   1925078388, 2162078206, 2614888103, 3248222580, 3835390401, 4022224774,
   264347078, 604807628, 770255983, 1249150122, 1555081692, 1996064986,
   2554220882, 2821834349, 2952996808, 3210313671, 3336571891, 3584528711,
   113926993, 338241895, 666307205, 773529912, 1294757372, 1396182291,
   1695183700, 1986661051, 2177026350, 2456956037, 2730485921, 2820302411,
   3259730800, 3345764771, 3516065817, 3600352804, 4094571909, 275423344,
   430227734, 506948616, 659060556, 883997877, 958139571, 1322822218,
   1537002063, 1747873779, 1955562222, 2024104815, 2227730452, 2361852424,
   2428436474, 2756734187, 3204031479, 3329325298]

def shaH0 : List Nat :=
  [1779033703, 3144134277, 1013904242, 2773480762,
   1359893119, 2600822924, 528734635, 1541459225]

def beBytes (k n : Nat) : List Nat :=
  (List.range k).map (fun i => n / 2 ^ (8 * (k - 1 - i)) % 256)

def shaPad (m : List Nat) : List Nat :=
  m ++ 0x80 :: List.replicate ((64 + 55 - m.length % 64) % 64) 0 ++ beBytes 8 (8 * m.length)

def wordOfBytes (bs : List Nat) : Nat :=
  bs.foldl (fun acc b => acc * 256 + b) 0

def msgSchedule (block : List Nat) : List Nat :=
  let w16 := (List.range 16).map (fun i => wordOfBytes ((block.drop (4 * i)).take 4))
  (List.range 48).foldl
    (fun acc _ =>
      let n := acc.length
      acc ++ [w32 (smallSigma1 (acc.getD (n - 2) 0) + acc.getD (n - 7) 0 +
        smallSigma0 (acc.getD (n - 15) 0) + acc.getD (n - 16) 0)])
    w16

def shaRound (wsched : List Nat) (st : List Nat) (i : Nat) : List Nat :=
  let a := st.getD 0 0
  let b := st.getD 1 0
  let c := st.getD 2 0
  let d := st.getD 3 0
  let e := st.getD 4 0
  let f := st.getD 5 0
  let g := st.getD 6 0
  let h := st.getD 7 0
  let t1 := w32 (h + bigSigma1 e + shaCh e f g + shaK.getD i 0 + wsched.getD i 0)
  let t2 := w32 (bigSigma0 a + shaMaj a b c)
  [w32 (t1 + t2), a, b, c, w32 (d + t1), e, f, g]

def shaCompress (hs : List Nat) (block : List Nat) : List Nat :=
  let wsched := msgSchedule block
  let st := (List.range 64).foldl (shaRound wsched) hs
  List.zipWith (fun x y => w32 (x + y)) hs st

def shaBlocks (hs : List Nat) : List Nat → List Nat
  | b00 :: b01 :: b02 :: b03 :: b04 :: b05 :: b06 :: b07 ::
    b08 :: b09 :: b10 :: b11 :: b12 :: b13 :: b14 :: b15 ::
    b16 :: b17 :: b18 :: b19 :: b20 :: b21 :: b22 :: b23 ::
    b24 :: b25 :: b26 :: b27 :: b28 :: b29 :: b30 :: b31 ::
    b32 :: b33 :: b34 :: b35 :: b36 :: b37 :: b38 :: b39 ::
    b40 :: b41 :: b42 :: b43 :: b44 :: b45 :: b46 :: b47 ::
    b48 :: b49 :: b50 :: b51 :: b52 :: b53 :: b54 :: b55 ::
    b56 :: b57 :: b58 :: b59 :: b60 :: b61 :: b62 :: b63 :: rest =>
    shaBlocks (shaCompress hs
      [b00, b01, b02, b03, b04, b05, b06, b07, b08, b09, b10, b11, b12, b13, b14, b15,
       b16, b17, b18, b19, b20, b21, b22, b23, b24, b25, b26, b27, b28, b29, b30, b31,
       b32, b33, b34, b35, b36, b37, b38, b39, b40, b41, b42, b43, b44, b45, b46, b47,
       b48, b49, b50, b51, b52, b53, b54, b55, b56, b57, b58, b59, b60, b61, b62, b63]) rest
  | _ => hs

def hexDigit (n : Nat) : Char :=
  if n < 10 then Char.ofNat (48 + n) else Char.ofNat (87 + n)

def hexWord (n : Nat) : List Char :=
  (List.range 8).map (fun i => hexDigit (n / 16 ^ (7 - i) % 16))

def sha256hex (s : String) : String :=
  String.mk (((shaBlocks shaH0 (shaPad (utf8Bytes s))).map hexWord).flatten)

/-! ## `backend.Backend`

The backend object. `all_samples_dirs` is `none` while the Python
attribute has never been assigned (reading it then raises
`AttributeError`). Functions that write files return the written content
alongside the new state instead of mutating the `World`. -/

structure Backend where
  filename : Option String
  results_path : Option PPath
  project_root : PPath
  thumbnail_path : Data
  filter_results_by_existance_of : Option String
  cached_path : PPath
  all_samples_dirs : Option (List PPath)
deriving DecidableEq

/-- `Backend.discover_all_samples`: logs and returns (leaving
`all_samples_dirs` untouched) when the results path is unset or missing;
otherwise builds the folder list — with a filter pattern, the sorted
recursive matches each mapped to `results_path / parts[0]` of their
relative path; without one, the sorted immediate children — stores it on
the object and writes it to the cache file as POSIX strings (returned as
the second component; `none` when nothing was written). -/
def Backend.discover_all_samples (w : World) (b : Backend) : Backend × Option (List String) :=
  match b.results_path with
  | none => (b, none)
  | some rp =>
    if w.pathExists rp = false then (b, none)
    else
      let all_samples_folders :=
        match b.filter_results_by_existance_of with
        | some pat =>
          let all_samples := sortPaths (w.rglobMatches rp pat)
          let all_samples_rel := all_samples.map (fun p => PPath.relParts rp p)
          -- `p.parts[0]`: rglob matches are strict descendants of the root
          -- (the pattern names at least one component), so the relative
          -- parts list is non-empty and `headD` is exact
          all_samples_rel.map (fun parts => rp.joinStr (parts.headD ""))
        | none => sortPaths (w.iterdir rp)
      ({ b with all_samples_dirs := some all_samples_folders },
        some (all_samples_folders.map PPath.asPosix))

/-- The cache path computed in `Backend.__init__` (source lines 29–39):
`<cache_folder>/<sha256(results_folder.as_posix() + (filter or ""))>.json`,
with `"null"` instead of the digest when the results folder is unset, and
`~/.cache/gradio_sample_viewer` as the default cache folder. -/
def cachedPathFor (w : World) (cfg : GradioConfig) : PPath :=
  let cachedDir :=
    match cfg.cache_folder with
    | some c => c
    | none => (w.home.joinStr ".cache").joinStr "gradio_sample_viewer"
  let results_path_hash :=
    match cfg.results_folder with
    | some rp => sha256hex (rp.asPosix ++ (cfg.filter_results_by_existance_of.getD ""))
    | none => "null"
  cachedDir.joinStr (results_path_hash ++ ".json")

/-- `Backend.__init__`: compute the cache path, then either read the
cached list or run discovery. The second component is the cache content
written by the discovery run, if any. -/
def Backend.init (w : World) (cfg : GradioConfig) (projectRoot : PPath) :
    Backend × Option (List String) :=
  let cachedPath := cachedPathFor w cfg
  let b : Backend :=
    { filename := cfg.filename
      results_path := cfg.results_folder
      project_root := projectRoot
      thumbnail_path := cfg.thumbnail_path
      filter_results_by_existance_of := cfg.filter_results_by_existance_of
      cached_path := cachedPath
      all_samples_dirs := none }
  if w.pathExists cachedPath then
    ({ b with all_samples_dirs := some (w.readJsonPaths cachedPath) }, none)
  else
    b.discover_all_samples w

/-! ## `backend.Backend.get_samples_metadata` -/

/-- One sample's metadata dictionary:
`{"id": sample_dir.name, "image": (thumbnail, sample_dir.name)}`. -/
structure SampleDesc where
  id : String
  image : Data × String
deriving DecidableEq

/-- The loop body for one sample: a string `thumbnail_path` is used as is;
anything else is subscripted with `"first_path_exists"` (raising
`TypeError`/`KeyError` when it is not a dict with that key) and handed to
`get_first_path_exists` with the sample directory as base. -/
def descriptorFor (w : World) (thumb : Data) (sampleDir : PPath) : Except PyErr SampleDesc := do
  match thumb with
  | .str s => pure ⟨sampleDir.name, (.str s, sampleDir.name)⟩
  | .dict kvs =>
    match kvs.lookup "first_path_exists" with
    | some (.list cands) => do
      let img ← get_first_path_exists w cands.toList sampleDir
      pure ⟨sampleDir.name, (img, sampleDir.name)⟩
    | some _ => .error .typeError
    | none => .error .keyError
  | _ => .error .typeError

/-- The body of the `try` block: read `self.all_samples_dirs`
(`AttributeError` when it was never assigned), slice out
`[offset : offset + limit]` and resolve each sample in order. -/
def pageResolve (w : World) (b : Backend) (offset limit : Nat) : Except PyErr (List SampleDesc) := do
  match b.all_samples_dirs with
  | none => .error .attributeError
  | some dirs => ((dirs.drop offset).take limit).mapM (descriptorFor w b.thumbnail_path)

/-- `Backend.get_samples_metadata(offset, limit)`: the whole loop runs
inside one `try`/`except Exception`; any error logs and returns `[]`.
(Pagination arguments are the cumulative page offset and the page size the
UI passes — non-negative integers.) -/
def Backend.get_samples_metadata (w : World) (b : Backend) (offset limit : Nat) :
    List SampleDesc :=
  match pageResolve w b offset limit with
  | .ok results => results
  | .error _ => []

/-! ## Layout-tree predicates

The spec's Layout Tree grammar: every tree position is a sequence or a
mapping; scalars occur only as mapping values. `load_layout_files` raises
`TypeError` exactly on data outside this grammar. -/

mutual

/-- The data is a layout tree in the spec's sense (a sequence of layout
trees, or a mapping whose container values are layout trees). -/
def isTree : Data → Bool
  | .list ds => isTreeSeq ds
  | .dict kvs => isTreeVals kvs
  | _ => false

def isTreeSeq : DList → Bool
  | .nil => true
  | .cons d tl => isTree d && isTreeSeq tl

def isTreeVals : DDict → Bool
  | .nil => true
  | .cons _ v tl => (!v.isContainer || isTree v) && isTreeVals tl

end

mutual

/-- No mapping anywhere in the tree carries a `first_path_exists` key or a
truthy `load_contents` key — the trees on which resolution is supposed to
be a pass-through. -/
def plainTree : Data → Bool
  | .list ds => plainSeq ds
  | .dict kvs =>
    !(kvs.containsKey "first_path_exists") &&
      !((kvs.lookup "load_contents").getD (.bool false)).truthy && plainVals kvs
  | _ => true

def plainSeq : DList → Bool
  | .nil => true
  | .cons d tl => plainTree d && plainSeq tl

def plainVals : DDict → Bool
  | .nil => true
  | .cons _ v tl => plainTree v && plainVals tl

end

/-! ## Spec-side definition for the substitution claim

The claim reads "textual substitution of the sample-folder placeholder
token in string values": the token replaced in string values only, with
mapping keys left untouched. Defined from the spec's words, to be compared
with `substData` (the behaviour of the code's serialize/replace/parse
round-trip, which also rewrites keys). -/

mutual

def substValuesOnly (folderName : String) : Data → Data
  | .str s => .str (substStr folderName s)
  | .list ds => .list (substValuesOnlySeq folderName ds)
  | .dict kvs => .dict (substValuesOnlyVals folderName kvs)
  | d => d

def substValuesOnlySeq (folderName : String) : DList → DList
  | .nil => .nil
  | .cons d tl => .cons (substValuesOnly folderName d) (substValuesOnlySeq folderName tl)

def substValuesOnlyVals (folderName : String) : DDict → DDict
  | .nil => .nil
  | .cons k v tl => .cons k (substValuesOnly folderName v) (substValuesOnlyVals folderName tl)

end

/-! ## Concrete worlds and fixtures for witnesses and counterexamples -/

/-- A world in which nothing exists and every parse is trivial. -/
def emptyWorld : World where
  pathExists := fun _ => false
  jsonContent := fun _ => .null
  csvContent := fun _ => .table .nil
  textContent := fun _ => ""
  rglobMatches := fun _ _ => []
  iterdir := fun _ => []
  readJsonPaths := fun _ => []
  home := { absolute := true, parts := ["home"] }

instance exceptDecEq {ε α : Type} [DecidableEq ε] [DecidableEq α] : DecidableEq (Except ε α)
  | .ok a, .ok b =>
    if h : a = b then .isTrue (by rw [h]) else .isFalse (fun hh => h (Except.ok.inj hh))
  | .error e, .error f =>
    if h : e = f then .isTrue (by rw [h]) else .isFalse (fun hh => h (Except.error.inj hh))
  | .ok _, .error _ => .isFalse (fun h => Except.noConfusion h)
  | .error _, .ok _ => .isFalse (fun h => Except.noConfusion h)

/-- A configuration whose single layout node carries the placeholder token
as a mapping key (and no special node anywhere). -/
def cfg6 : GradioConfig where
  results_folder := some (parsePath "/res")
  layout := .cons (.dict (.cons "${sample_folder_name}" (.int 1) .nil)) .nil
  thumbnail_path := .str "t.png"
  filter_results_by_existance_of := none
  cache_folder := some (parsePath "/c")
  filename := none

/-- A world holding one CSV file `/res/s1/data.csv` with the single row
label `row1`. -/
def w2 : World :=
  { emptyWorld with
    pathExists := fun p => decide (p = parsePath "/res/s1/data.csv")
    csvContent := fun _ => .table (.cons "row1" (.cell "x") .nil) }

/-- A file-backed node loading `data.csv` and indexing the absent label
`row5`. -/
def node2 : Data :=
  .dict (.cons "load_contents" (.bool true)
    (.cons "load_path" (.str "data.csv")
      (.cons "indices" (.list (.cons (.str "row5") .nil)) .nil)))

/-- A world holding one empty CSV file `/res/s1/empty.csv`. -/
def w2e : World :=
  { emptyWorld with pathExists := fun p => decide (p = parsePath "/res/s1/empty.csv") }

/-- A file-backed node (as its key/value map) loading the empty CSV by an
absolute path and indexing it. -/
def kvs2e : DDict :=
  .cons "load_contents" (.bool true)
    (.cons "load_path" (.str "/res/s1/empty.csv")
      (.cons "indices" (.list (.cons (.str "row5") .nil)) .nil))

/-- A structured thumbnail specification whose second candidate is not a
path-like value, so it resolves only for samples in which the first
candidate exists. -/
def thumb4 : Data :=
  .dict (.cons "first_path_exists"
    (.list (.cons (.str "t.png") (.cons (.int 3) .nil))) .nil)

/-- A world in which only `/r/s1/t.png` exists. -/
def w4 : World :=
  { emptyWorld with pathExists := fun p => decide (p = parsePath "/r/s1/t.png") }

/-- A backend holding two discovered samples `s1`, `s2` under `/r` with
the structured thumbnail above. -/
def b4 : Backend where
  filename := none
  results_path := some (parsePath "/r")
  project_root := { absolute := false, parts := [] }
  thumbnail_path := thumb4
  filter_results_by_existance_of := none
  cached_path := { absolute := true, parts := ["c", "x.json"] }
  all_samples_dirs := some [parsePath "/r/s1", parsePath "/r/s2"]

/-- A world where `/r` exists and the recursive glob finds two marker
files inside the same sample directory `/r/a` (listed out of order, to
exercise the sort). -/
def w3 : World :=
  { emptyWorld with
    pathExists := fun p => decide (p = parsePath "/r")
    rglobMatches := fun _ _ => [parsePath "/r/a/m2.json", parsePath "/r/a/m1.json"] }

/-- A backend configured with a filter pattern over `/r`, before
discovery. -/
def b3 : Backend where
  filename := none
  results_path := some (parsePath "/r")
  project_root := { absolute := false, parts := [] }
  thumbnail_path := .str "t.png"
  filter_results_by_existance_of := some "m*.json"
  cached_path := { absolute := true, parts := ["c", "h.json"] }
  all_samples_dirs := none

/-- A backend holding three discovered samples `a`, `b`, `c` under `/r`
with a literal thumbnail template. -/
def b7 : Backend where
  filename := none
  results_path := some (parsePath "/r")
  project_root := { absolute := false, parts := [] }
  thumbnail_path := .str "th.png"
  filter_results_by_existance_of := none
  cached_path := { absolute := true, parts := ["c", "h.json"] }
  all_samples_dirs := some [parsePath "/r/a", parsePath "/r/b", parsePath "/r/c"]

/-- A configuration with no results folder at all. -/
def cfg8 : GradioConfig where
  results_folder := none
  layout := .nil
  thumbnail_path := .str "t"
  filter_results_by_existance_of := none
  cache_folder := some (parsePath "/c")
  filename := none

/-- A configuration whose results folder does not exist in `emptyWorld`. -/
def cfg8b : GradioConfig :=
  { cfg8 with results_folder := some (parsePath "/gone") }

/-- The spec's cache-name scenario: results folder `/r`, filter
`meta.json`. -/
def cfg9 : GradioConfig where
  results_folder := some (parsePath "/r")
  layout := .nil
  thumbnail_path := .str "t"
  filter_results_by_existance_of := some "meta.json"
  cache_folder := some (parsePath "/c")
  filename := none

/-! ## Helper lemmas for the `Except` monad -/

@[simp] theorem exceptBindOk {ε α β : Type} (a : α) (f : α → Except ε β) :
    (Except.ok a >>= f) = f a := rfl

@[simp] theorem exceptBindErr {ε α β : Type} (e : ε) (f : α → Except ε β) :
    ((Except.error e : Except ε α) >>= f) = .error e := rfl

@[simp] theorem exceptPureEq {ε α : Type} (a : α) :
    (pure a : Except ε α) = .ok a := rfl

/-! ## Helper lemmas about the path resolver -/

/-- When every candidate parses to a path whose base-joined form does not
exist, the search loop falls through. -/
theorem firstExisting_none (w : World) (base : PPath) :
    ∀ l : List Data, (∀ d ∈ l, ∃ p, asPath d = .ok p ∧ w.pathExists (base.join p) = false) →
      firstExisting w base l = .ok none
  | [], _ => rfl
  | c :: rest, h => by
    obtain ⟨p, hp, hex⟩ := h c (by simp)
    have ih := firstExisting_none w base rest (fun d hd => h d (by simp [hd]))
    simp [firstExisting, hp, hex, ih]

/-- On a list of strings and paths the search loop never raises. -/
theorem firstExisting_isOk (w : World) (base : PPath) :
    ∀ l : List Data, (∀ d ∈ l, Data.isPathLike d = true) →
      ∃ o, firstExisting w base l = .ok o
  | [], _ => ⟨none, rfl⟩
  | c :: rest, h => by
    obtain ⟨p, hp⟩ : ∃ p, asPath c = .ok p := by
      have hc := h c (by simp)
      cases c <;> simp_all [Data.isPathLike, asPath]
    by_cases hex : w.pathExists (base.join p) = true
    · exact ⟨some (base.join p), by simp [firstExisting, hp, hex]⟩
    · have hex2 : w.pathExists (base.join p) = false := by simpa using hex
      obtain ⟨o, ho⟩ := firstExisting_isOk w base rest (fun d hd => h d (by simp [hd]))
      exact ⟨o, by simp [firstExisting, hp, hex2, ho]⟩

/-! ## Claim C1 -/

/-- C1 (counterexample): with base directory `/b` and the single
relative candidate `"a"` existing nowhere, `get_first_path_exists` returns
the candidate string `"a"` exactly as given, which is not the base-joined
path `/b/a` the claim prescribes. -/
theorem c1_counterexample :
    get_first_path_exists emptyWorld [Data.str "a"] { absolute := true, parts := ["b"] } =
      .ok (.str "a") ∧
    (Except.ok (Data.str "a") : Except PyErr Data) ≠
      .ok (.path ((PPath.mk true ["b"]).join (parsePath "a"))) := by
  constructor
  · rfl
  · simp

/-- C1 (amended): for every non-empty candidate list in which no candidate
path exists on disk (relative candidates tested after joining with the
base directory, absolute candidates as-is), `get_first_path_exists`
returns the first candidate exactly as given — without the base-dir join —
and never any other candidate. -/
theorem c1_fallback_first_raw (w : World) (base : PPath) (c : Data) (cs : List Data)
    (h : ∀ d ∈ c :: cs, ∃ p, asPath d = .ok p ∧ w.pathExists (base.join p) = false) :
    get_first_path_exists w (c :: cs) base = .ok c := by
  simp [get_first_path_exists, firstExisting_none w base (c :: cs) h]

/-- C1 (witness): the amended theorem evaluated on the counterexample
fixture. -/
theorem c1_witness :
    get_first_path_exists emptyWorld [Data.str "x"] { absolute := true, parts := ["b"] } =
      .ok (.str "x") :=
  c1_fallback_first_raw emptyWorld { absolute := true, parts := ["b"] } (Data.str "x") []
    (by
      intro d hd
      rw [List.mem_singleton] at hd
      subst hd
      exact ⟨parsePath "x", rfl, rfl⟩)

/-! ## Claim C5 -/

/-- C5: calling `get_first_path_exists` with an empty candidate list fails
(the `IndexError` from `path_candidates[0]` — the spec's
`InvalidConfiguration` contract violation); for every non-empty list of
string/path candidates some defined value is returned. -/
theorem c5_empty_raises_nonempty_returns :
    (∀ (w : World) (base : PPath),
      get_first_path_exists w [] base = .error .indexError) ∧
    ∀ (w : World) (base : PPath) (cands : List Data), cands ≠ [] →
      (∀ d ∈ cands, Data.isPathLike d = true) →
      ∃ r, get_first_path_exists w cands base = .ok r := by
  constructor
  · intro w base
    rfl
  · intro w base cands hne hlike
    obtain ⟨o, ho⟩ := firstExisting_isOk w base cands hlike
    match o, cands, hne with
    | some p, _, _ => exact ⟨.path p, by simp [get_first_path_exists, ho]⟩
    | none, c :: cs, _ => exact ⟨c, by simp [get_first_path_exists, ho]⟩

/-- C5 (witness): both parts evaluated concretely — the empty list raises
`IndexError`, and a non-empty list of string candidates returns a value. -/
theorem c5_witness :
    get_first_path_exists emptyWorld [] { absolute := true, parts := ["b"] } =
      .error .indexError ∧
    ∃ r, get_first_path_exists emptyWorld [Data.str "a"] { absolute := true, parts := ["b"] } =
      .ok r :=
  ⟨c5_empty_raises_nonempty_returns.1 emptyWorld { absolute := true, parts := ["b"] },
    c5_empty_raises_nonempty_returns.2 emptyWorld { absolute := true, parts := ["b"] }
      [Data.str "a"] (by simp)
      (by
        intro d hd
        rw [List.mem_singleton] at hd
        subst hd
        rfl)⟩

/-! ## The pass-through lemma: resolution is the identity on plain trees -/

mutual

theorem loadIdTree (w : World) (sn : String) (rf : Option PPath) :
    ∀ d : Data, isTree d = true → plainTree d = true →
      load_layout_files w d sn rf = .ok d
  | .list ds, ht, hp => by
    have h := loadIdSeq w sn rf ds (by simpa [isTree] using ht) (by simpa [plainTree] using hp)
    simp [load_layout_files, h]
  | .dict kvs, ht, hp => by
    simp only [plainTree, Bool.and_eq_true, Bool.not_eq_true'] at hp
    obtain ⟨⟨h1, h2⟩, h3⟩ := hp
    have hv := loadIdVals w sn rf kvs (by simpa [isTree] using ht) h3
    simp [load_layout_files, h1, h2, hv]
  | .null, ht, _ => by simp [isTree] at ht
  | .bool _, ht, _ => by simp [isTree] at ht
  | .int _, ht, _ => by simp [isTree] at ht
  | .str _, ht, _ => by simp [isTree] at ht
  | .path _, ht, _ => by simp [isTree] at ht
  | .frame _, ht, _ => by simp [isTree] at ht

theorem loadIdSeq (w : World) (sn : String) (rf : Option PPath) :
    ∀ ds : DList, isTreeSeq ds = true → plainSeq ds = true →
      load_layout_files_seq w ds sn rf = .ok ds
  | .nil, _, _ => rfl
  | .cons d tl, ht, hp => by
    simp only [isTreeSeq, Bool.and_eq_true] at ht
    simp only [plainSeq, Bool.and_eq_true] at hp
    have h1 := loadIdTree w sn rf d ht.1 hp.1
    have h2 := loadIdSeq w sn rf tl ht.2 hp.2
    simp [load_layout_files_seq, h1, h2]

theorem loadIdVals (w : World) (sn : String) (rf : Option PPath) :
    ∀ kvs : DDict, isTreeVals kvs = true → plainVals kvs = true →
      load_layout_files_vals w kvs sn rf = .ok kvs
  | .nil, _, _ => rfl
  | .cons k v tl, ht, hp => by
    simp only [isTreeVals, Bool.and_eq_true] at ht
    simp only [plainVals, Bool.and_eq_true] at hp
    have htl := loadIdVals w sn rf tl ht.2 hp.2
    by_cases hc : v.isContainer = true
    · have hv : isTree v = true := by
        have hor := ht.1
        simp [hc] at hor
        exact hor
      have h1 := loadIdTree w sn rf v hv hp.1
      simp [load_layout_files_vals, hc, h1, htl]
    · have hc2 : v.isContainer = false := by simpa using hc
      simp [load_layout_files_vals, hc2, htl]

end

/-! ## Claim C6 -/

/-- C6 (counterexample): resolving a tree whose only occurrence of the
placeholder token is a mapping key is not "identity except substitution in
string values": the key is rewritten too, because the substitution runs on
the serialized JSON text. -/
theorem c6_counterexample :
    prepare_layout_components emptyWorld cfg6 "f" =
      .ok (.list (.cons (.dict (.cons "f" (.int 1) .nil)) .nil)) ∧
    prepare_layout_components emptyWorld cfg6 "f" ≠
      .ok (substValuesOnly "f" (.list cfg6.layout)) := by
  constructor
  · rfl
  · decide

/-- C6 (amended): for every layout tree (in the spec's tree grammar) whose
resolved copy contains no `first_path_exists` node and no truthy
`load_contents` node, `prepare_layout_components` followed by
`load_layout_files` is the identity transform, except for the textual
substitution of the sample-folder placeholder token in string values and
in mapping keys. -/
theorem c6_resolve_identity_upto_subst (w : World) (cfg : GradioConfig) (folderName : String)
    (ht : isTree (substData folderName (.list cfg.layout)) = true)
    (hp : plainTree (substData folderName (.list cfg.layout)) = true) :
    prepare_layout_components w cfg folderName =
      .ok (substData folderName (.list cfg.layout)) :=
  loadIdTree w folderName cfg.results_folder (substData folderName (.list cfg.layout)) ht hp

/-- C6 (witness): the amended theorem evaluated on the concrete
configuration: the tree comes back unchanged except that the placeholder
key became the folder name. -/
theorem c6_witness :
    prepare_layout_components emptyWorld cfg6 "f" =
      .ok (substData "f" (.list cfg6.layout)) :=
  c6_resolve_identity_upto_subst emptyWorld cfg6 "f" (by decide) (by decide)

/-! ## Claim C10 -/

/-- C10: placeholder substitution is performed once, before traversal, on
a copy of the layout tree: threading the configuration as explicit state,
the resolved value is `load_layout_files` of the substituted copy of
`cfg.layout`, the configuration (hence the original template) comes back
unchanged, and resolving one sample after another sample's resolution
yields exactly what resolving it alone yields — each sample gets an
independent tree instance. -/
theorem c10_subst_once_template_unchanged (w : World) (cfg : GradioConfig)
    (folderName otherFolder : String) :
    (resolveSession w cfg folderName).2 = cfg ∧
    (resolveSession w cfg folderName).1 =
      load_layout_files w (substData folderName (.list cfg.layout)) folderName
        cfg.results_folder ∧
    (resolveSession w ((resolveSession w cfg otherFolder).2) folderName).1 =
      (resolveSession w cfg folderName).1 :=
  ⟨rfl, rfl, rfl⟩

/-! ## Claim C2 -/

/-- C2 (counterexample): a file-backed node whose loaded content is a
non-empty CSV table and whose index chain names the absent label `row5`
raises `KeyError` (pandas `.loc`) instead of yielding the absent result
the claim promises for tabular content. -/
theorem c2_counterexample :
    load_layout_files w2 node2 "s1" (some (parsePath "/res")) = .error .keyError := by
  decide

/-- C2 (amended): over loaded content that is a keyed mapping, a lookup of
an absent key at any position of the index chain yields the defined absent
result (`None`, no exception), and an empty tabular structure
short-circuits to the absent result before any lookup is attempted; for a
non-empty tabular structure, however, an absent label raises a lookup
error rather than yielding the absent result. -/
theorem c2_absent_key_and_empty_table :
    (∀ (kvs : DDict) (k : String) (rest : List Data), kvs.lookup k = none →
      dictChain (.dict kvs) (.str k :: rest) = .ok .null) ∧
    (∀ (w : World) (kvs : DDict) (sn : String) (rf : Option PPath) (lp : String)
        (i0 : Data) (itl : DList),
      kvs.lookup "load_path" = some (.str lp) →
      (parsePath lp).absolute = true →
      w.pathExists (parsePath lp) = true →
      (parsePath lp).suffix = ".csv" →
      (w.csvContent (parsePath lp)).isEmpty = true →
      kvs.lookup "indices" = some (.list (.cons i0 itl)) →
      load_contents_branch w kvs sn rf = .ok .null) := by
  constructor
  · intro kvs k rest h
    simp [dictChain, h]
  · intro w kvs sn rf lp i0 itl hlp habs hex hsuf hempty hidx
    simp [load_contents_branch, hlp, asPath, habs, hex, load_file, hsuf, hidx, hempty]

/-- C2 (witness): the amended theorem evaluated concretely — an absent key
on a mapping yields `None`, and a node indexing an empty CSV yields
`None`. -/
theorem c2_witness :
    dictChain (.dict (.cons "a" (.int 1) .nil)) [.str "b"] = .ok .null ∧
    load_contents_branch w2e kvs2e "s1" (some (parsePath "/res")) = .ok .null :=
  ⟨c2_absent_key_and_empty_table.1 (.cons "a" (.int 1) .nil) "b" [] (by decide),
    c2_absent_key_and_empty_table.2 w2e kvs2e "s1" (some (parsePath "/res"))
      "/res/s1/empty.csv" (.str "row5") .nil rfl rfl (by decide) rfl rfl rfl⟩

/-! ## Structural lemmas about the backend -/

/-- Discovery never touches the cache path stored on the object. -/
theorem discover_cachedPath (w : World) (b : Backend) :
    (Backend.discover_all_samples w b).1.cached_path = b.cached_path := by
  unfold Backend.discover_all_samples
  cases b.results_path with
  | none => rfl
  | some rp =>
    by_cases h : w.pathExists rp = false
    · simp [h]
    · simp [h]

/-- The cache path stored by `__init__` is `cachedPathFor`, on both the
cache-hit and the discovery branch. -/
theorem init_cachedPath (w : World) (cfg : GradioConfig) (root : PPath) :
    (Backend.init w cfg root).1.cached_path = cachedPathFor w cfg := by
  unfold Backend.init
  by_cases h : w.pathExists (cachedPathFor w cfg) = true
  · simp [h]
  · simp [h, discover_cachedPath]

/-! ## Claim C3 -/

/-- C3 (counterexample): with a filter pattern matching two marker files
inside the same sample directory `/r/a`, discovery produces that directory
twice, both in memory and in the persisted cache content — the sample
list does contain duplicate directories. -/
theorem c3_counterexample :
    (Backend.discover_all_samples w3 b3).1.all_samples_dirs =
      some [{ absolute := true, parts := ["r", "a"] },
        { absolute := true, parts := ["r", "a"] }] ∧
    (Backend.discover_all_samples w3 b3).2 = some ["/r/a", "/r/a"] ∧
    ¬ ([{ absolute := true, parts := ["r", "a"] },
      { absolute := true, parts := ["r", "a"] }] : List PPath).Nodup := by
  refine ⟨by decide, by decide, by decide⟩

/-- C3 (amended): when a filter pattern is set, discovery sorts the
recursive matches, then maps each match to `results_folder` joined with
the first component of the match's path relative to `results_folder`,
without deduplicating; the persisted list is exactly the in-memory list in
POSIX form (so the same directory can occur several times). -/
theorem c3_filtered_discovery_shape (w : World) (b : Backend) (rp : PPath) (pat : String)
    (h1 : b.results_path = some rp) (h2 : w.pathExists rp = true)
    (h3 : b.filter_results_by_existance_of = some pat) :
    (Backend.discover_all_samples w b).1.all_samples_dirs =
      some ((sortPaths (w.rglobMatches rp pat)).map
        (fun p => rp.joinStr ((PPath.relParts rp p).headD ""))) ∧
    (Backend.discover_all_samples w b).2 =
      some (((sortPaths (w.rglobMatches rp pat)).map
        (fun p => rp.joinStr ((PPath.relParts rp p).headD ""))).map PPath.asPosix) := by
  unfold Backend.discover_all_samples
  simp [h1, h2, h3]

/-- C3 (witness): the amended theorem evaluated on the duplicate-producing
fixture. -/
theorem c3_witness :
    (Backend.discover_all_samples w3 b3).1.all_samples_dirs =
      some ((sortPaths (w3.rglobMatches (parsePath "/r") "m*.json")).map
        (fun p => (parsePath "/r").joinStr
          ((PPath.relParts (parsePath "/r") p).headD ""))) :=
  (c3_filtered_discovery_shape w3 b3 (parsePath "/r") "m*.json" rfl (by decide) rfl).1

/-! ## Claim C4 -/

/-- C4 (counterexample): a page of two samples in which only the first
sample's thumbnail resolves: the failure of the second sample empties the
whole page — the first sample's descriptor, although resolvable on its
own, is not returned. -/
theorem c4_counterexample :
    Backend.get_samples_metadata w4 b4 0 10 = [] ∧
    descriptorFor w4 thumb4 (parsePath "/r/s1") =
      .ok ⟨"s1", (.path (parsePath "/r/s1/t.png"), "s1")⟩ := by
  refine ⟨by decide, by decide⟩

/-- C4 (amended): errors during a page's resolution are caught at the
whole-page boundary, not per sample: `get_samples_metadata` either returns
every descriptor of the requested slice (when all of them resolve) or
returns the empty list (when any one of them fails) — it never raises, and
it never returns a partial page. -/
theorem c4_page_boundary_catch (w : World) (b : Backend) (offset limit : Nat) :
    (∃ rs, pageResolve w b offset limit = .ok rs ∧
      Backend.get_samples_metadata w b offset limit = rs) ∨
    (∃ e, pageResolve w b offset limit = .error e ∧
      Backend.get_samples_metadata w b offset limit = []) := by
  cases h : pageResolve w b offset limit with
  | ok rs => exact .inl ⟨rs, rfl, by simp [Backend.get_samples_metadata, h]⟩
  | error e => exact .inr ⟨e, rfl, by simp [Backend.get_samples_metadata, h]⟩

/-! ## Claim C7 -/

/-- C7: pagination returns exactly the slice `[offset, offset + limit)` of
the discovered list, in order, mapped to sample descriptors (whenever each
sample of the slice resolves, e.g. with a literal thumbnail template); an
out-of-range offset yields the empty list, and the function never raises. -/
theorem c7_pagination_slice :
    (∀ (w : World) (b : Backend) (dirs : List PPath) (offset limit : Nat)
        (rs : List SampleDesc),
      b.all_samples_dirs = some dirs →
      ((dirs.drop offset).take limit).mapM (descriptorFor w b.thumbnail_path) = .ok rs →
      Backend.get_samples_metadata w b offset limit = rs) ∧
    (∀ (w : World) (b : Backend) (dirs : List PPath) (offset limit : Nat),
      b.all_samples_dirs = some dirs → dirs.length ≤ offset →
      Backend.get_samples_metadata w b offset limit = []) := by
  constructor
  · intro w b dirs offset limit rs h1 h2
    simp only [Backend.get_samples_metadata, pageResolve, h1]
    rw [h2]
  · intro w b dirs offset limit h1 h2
    have hd : dirs.drop offset = [] := List.drop_eq_nil_of_le h2
    simp only [Backend.get_samples_metadata, pageResolve, h1, hd, List.take_nil]
    rfl

/-- C7 (witness): the spec's scenario — samples `a`, `b`, `c`; page
`(0, 2)` returns `a`, `b` in order and page `(2, 2)` returns `c` only. -/
theorem c7_witness :
    Backend.get_samples_metadata emptyWorld b7 0 2 =
      [⟨"a", (.str "th.png", "a")⟩, ⟨"b", (.str "th.png", "b")⟩] ∧
    Backend.get_samples_metadata emptyWorld b7 2 2 = [⟨"c", (.str "th.png", "c")⟩] :=
  ⟨c7_pagination_slice.1 emptyWorld b7
      [parsePath "/r/a", parsePath "/r/b", parsePath "/r/c"] 0 2
      [⟨"a", (.str "th.png", "a")⟩, ⟨"b", (.str "th.png", "b")⟩] rfl (by decide),
    c7_pagination_slice.1 emptyWorld b7
      [parsePath "/r/a", parsePath "/r/b", parsePath "/r/c"] 2 2
      [⟨"c", (.str "th.png", "c")⟩] rfl (by decide)⟩

/-! ## Claim C8 -/

/-- C8 (counterexample): constructing the backend with no results folder
(and no pre-existing cache file) leaves `all_samples_dirs` unset — the
Python attribute is never assigned, which is not the "empty sample list"
the claim describes — while pagination still returns the empty page (the
attribute error is swallowed by the page handler). -/
theorem c8_counterexample :
    (Backend.init emptyWorld cfg8 { absolute := false, parts := [] }).1.all_samples_dirs =
      none ∧
    (Backend.init emptyWorld cfg8 { absolute := false, parts := [] }).1.all_samples_dirs ≠
      some [] ∧
    Backend.get_samples_metadata emptyWorld
      (Backend.init emptyWorld cfg8 { absolute := false, parts := [] }).1 0 10 = [] := by
  refine ⟨by decide, by decide, by decide⟩

/-- C8 (amended): if `results_folder` is unset or does not exist on disk
(and no cache file pre-exists), discovery logs the failure and returns
without assigning the sample list — the attribute stays unset and no cache
is written — and construction still succeeds; subsequent pagination
returns an empty page (the attribute error is caught at the page
boundary), so the viewer sees "no samples" and keeps working rather than
crashing. -/
theorem c8_missing_results_degrades (w : World) (cfg : GradioConfig) (root : PPath)
    (offset limit : Nat)
    (h1 : cfg.results_folder = none ∨
      ∃ rp, cfg.results_folder = some rp ∧ w.pathExists rp = false)
    (h2 : w.pathExists (cachedPathFor w cfg) = false) :
    (Backend.init w cfg root).1.all_samples_dirs = none ∧
    (Backend.init w cfg root).2 = none ∧
    Backend.get_samples_metadata w (Backend.init w cfg root).1 offset limit = [] := by
  rcases h1 with h1 | ⟨rp, h1, h3⟩
  · refine ⟨?_, ?_, ?_⟩ <;>
      simp [Backend.init, Backend.discover_all_samples, Backend.get_samples_metadata,
        pageResolve, h1, h2]
  · refine ⟨?_, ?_, ?_⟩ <;>
      simp [Backend.init, Backend.discover_all_samples, Backend.get_samples_metadata,
        pageResolve, h1, h2, h3]

/-- C8 (witness): both degradation modes evaluated concretely — an unset
results folder and a non-existent one. -/
theorem c8_witness :
    ((Backend.init emptyWorld cfg8 { absolute := false, parts := [] }).2 = none ∧
      Backend.get_samples_metadata emptyWorld
        (Backend.init emptyWorld cfg8 { absolute := false, parts := [] }).1 0 10 = []) ∧
    ((Backend.init emptyWorld cfg8b { absolute := false, parts := [] }).2 = none ∧
      Backend.get_samples_metadata emptyWorld
        (Backend.init emptyWorld cfg8b { absolute := false, parts := [] }).1 3 7 = []) :=
  ⟨⟨(c8_missing_results_degrades emptyWorld cfg8 { absolute := false, parts := [] } 0 10
        (Or.inl rfl) (by decide)).2.1,
      (c8_missing_results_degrades emptyWorld cfg8 { absolute := false, parts := [] } 0 10
        (Or.inl rfl) (by decide)).2.2⟩,
    ⟨(c8_missing_results_degrades emptyWorld cfg8b { absolute := false, parts := [] } 3 7
        (Or.inr ⟨parsePath "/gone", rfl, rfl⟩) (by decide)).2.1,
      (c8_missing_results_degrades emptyWorld cfg8b { absolute := false, parts := [] } 3 7
        (Or.inr ⟨parsePath "/gone", rfl, rfl⟩) (by decide)).2.2⟩⟩

/-! ## Claim C9 -/

/-- C9: for every configured results folder and optional filter pattern,
the discovery cache file name is the hex-encoded SHA-256 of the POSIX path
string of `results_folder` concatenated directly (no separator) with the
filter pattern string (or the empty string when no filter is set),
followed by the `.json` extension, under the cache folder. -/
theorem c9_cache_name (w : World) (cfg : GradioConfig) (root : PPath) (rp cd : PPath)
    (h1 : cfg.results_folder = some rp) (h2 : cfg.cache_folder = some cd) :
    (Backend.init w cfg root).1.cached_path =
      cd.joinStr
        (sha256hex (rp.asPosix ++ (cfg.filter_results_by_existance_of.getD "")) ++
          ".json") := by
  rw [init_cachedPath]
  simp [cachedPathFor, h1, h2]

set_option maxRecDepth 400000 in
/-- C9 (witness): the spec's scenario — the cache file for
`(results_folder = "/r", filter = "meta.json")` is named
`sha256("/r" + "meta.json")`-hex `.json`, and the digest is the actual
SHA-256 value `3d83ad…08a1`. -/
theorem c9_witness :
    (Backend.init emptyWorld cfg9 { absolute := false, parts := [] }).1.cached_path =
      { absolute := true,
        parts :=
          ["c",
            "3d83ad91b3d6ff8459129c697c0a94a20137207059cec292bc540f09651008a1.json"] } := by
  rw [c9_cache_name emptyWorld cfg9 { absolute := false, parts := [] }
    (parsePath "/r") (parsePath "/c") rfl rfl]
  rfl

end GSV
